import Mathlib

/-!
Verification of a browser-side SSO authentication module (Ping Identity
OAuth/OIDC helper).  The repository bundles several variants of the same
module; each is embedded separately:

* `AuthMain`   — the variant with a backend authorization-code exchange
  (`src/auth.js`): `getToken` is a pure read of session storage, `login`
  performs a GET against the backend and stores the returned token.
* `AuthSrc`    — the variant whose `getToken` also extracts tokens from the
  page URL and writes them to session storage (`src/src/auth.js`).
* `AuthSample` — the sample-test variant whose `login` extracts the token
  from the URL directly (`src/unnamed/part_000`), together with the
  hostname/group based role derivation `isAdmin` / `isDeveloper` /
  `isProjectMember`.

Session storage is modelled as `Option String` (the single token slot);
the page URL as fragment/query parameter lists; the external `jwt-decode`
primitive as a function `String → Option Claims` (`none` = decode throws);
`Date.now()` as an explicit `now : Int` in milliseconds.  Functions with
storage side effects return the updated store alongside their result.
-/

/-- Decoded JWT claims.  Only the `exp` claim (numeric epoch seconds) is
inspected by the code under verification; it may be absent. -/
structure Claims where
  exp : Option Int
deriving DecidableEq

/-- JavaScript truthiness of a string-or-null value: `null` and `""` are
falsy, every other string is truthy. -/
def strTruthy : Option String → Bool
  | none => false
  | some s => s != ""

/-- JavaScript `a || b` on string-or-null values: `a` if truthy, else `b`. -/
def jsOr (a b : Option String) : Option String :=
  if strTruthy a then a else b

/-- Does the pattern match at the head of the text?  (Char-list helper for
substring search.) -/
def matchesAt : List Char → List Char → Bool
  | [], _ => true
  | _ :: _, [] => false
  | c :: cs, d :: ds => c == d && matchesAt cs ds

/-- Does the pattern occur anywhere in the text? -/
def hasSub (pat : List Char) : List Char → Bool
  | [] => matchesAt pat []
  | d :: ds => matchesAt pat (d :: ds) || hasSub pat ds

/-- JavaScript `s.indexOf(pat) > -1` / `s.includes(pat)`: substring test. -/
def jsIncludes (s pat : String) : Bool :=
  hasSub pat.data s.data

/-- URL parameter lists (`URLSearchParams`): ordered key/value pairs. -/
abbrev UrlParams := List (String × String)

/-- `URLSearchParams.get`: first value under the key, or `null`. -/
def getParam (ps : UrlParams) (k : String) : Option String :=
  (ps.find? (fun p => p.1 == k)).map (fun p => p.2)

/-- A page URL: its fragment parameters (`none` when `location.hash` is
empty) and its query-string parameters. -/
structure Url where
  frag : Option UrlParams
  query : UrlParams

/-- Token Store `save`: `sessionStorage.setItem(TOKEN_KEY, t)` — overwrites
any existing value. -/
def saveToken (t : String) (_ : Option String) : Option String :=
  some t

/- ===================== Role derivation (src/unnamed/part_000) ========== -/

/-- `const LOCALHOST_ACTION = true` — fixed boolean returned for the
`localhost` hostname (full access for local testing). -/
def LOCALHOST_ACTION : Bool := true

/-- `isAdmin` from `src/unnamed/part_000`: localhost override, then
region-scoped exact group membership keyed by hostname substring
(`global`, `amea`, `meu`,  in that order).  `memberOf = memberOf || []`
is modelled by `Option.getD`. -/
def isAdmin (hostname : String) (memberOf : Option (List String)) : Bool :=
  if hostname = "localhost" then LOCALHOST_ACTION
  else
    let m := memberOf.getD []
    if jsIncludes hostname "global" then
      m.contains "mdz-diat-admin-glbl-grp" || m.contains "mdz-diat-admin-amer-grp"
    else if jsIncludes hostname "amea" then
      m.contains "mdz-diat-admin-amea-grp"
    else if jsIncludes hostname "meu" then
      m.contains "mdz-diat-admin-meu-grp"
    else false

/-- `isDeveloper` from `src/unnamed/part_000`: returns `isAdmin`'s value
immediately when it is true, then the developer group table. -/
def isDeveloper (hostname : String) (memberOf : Option (List String)) : Bool :=
  let isAnAdmin := isAdmin hostname memberOf
  if isAnAdmin then isAnAdmin
  else if hostname = "localhost" then LOCALHOST_ACTION
  else
    let m := memberOf.getD []
    if jsIncludes hostname "global" then
      m.contains "mdz-diat-dev-glbl-grp" || m.contains "mdz-diat-dev-amer-grp"
    else if jsIncludes hostname "amea" then
      m.contains "mdz-diat-dev-amea-grp"
    else if jsIncludes hostname "meu" then
      m.contains "mdz-diat-dev-meu-grp"
    else false

/-- `isProjectMember` from `src/unnamed/part_000`: returns `isDeveloper`'s
value immediately when it is true, then the project group table. -/
def isProjectMember (hostname : String) (memberOf : Option (List String)) : Bool :=
  let isADeveloper := isDeveloper hostname memberOf
  if isADeveloper then isADeveloper
  else if hostname = "localhost" then LOCALHOST_ACTION
  else
    let m := memberOf.getD []
    if jsIncludes hostname "global" then
      m.contains "mdz-diat-prj-glbl-grp" || m.contains "mdz-diat-prj-amer-grp"
    else if jsIncludes hostname "amea" then
      m.contains "mdz-diat-prj-amea-grp"
    else if jsIncludes hostname "meu" then
      m.contains "mdz-diat-prj-meu-grp"
    else false

/- ===================== URL builder (src/src/utils.js, 2nd variant) ===== -/

/-- The conditional trailing slash of the concatenating `getSSOUrl`
variant: `redirectUri.indexOf("global") > -1 && !redirectUri?.includes("predev")
? "/" : ""` — note it tests the whole redirect URI string. -/
def redirectSlash (redirectUri : String) : String :=
  if jsIncludes redirectUri "global" = true ∧ jsIncludes redirectUri "predev" = false
  then "/" else ""

/-- The concatenating `getSSOUrl` of `src/src/utils.js` with its three
local constants (`clientId`, `authorizationEndpoint`, `scope`) lifted to
parameters so the builder can be evaluated at the spec's scenario config;
`responseType` is the literal `"code"` as in the source. -/
def getSSOUrlWith (clientId authorizationEndpoint scope redirectUri : String) : String :=
  authorizationEndpoint ++ "?response_type=code&client_id=" ++ clientId ++
    "&redirect_uri=" ++ redirectUri ++ redirectSlash redirectUri ++
    "&scope=" ++ scope

/-- `getSSOUrl` exactly as in `src/src/utils.js` (second variant): the
parameterised builder at the source's hard-coded constants. -/
def getSSOUrl (redirectUri : String) : String :=
  getSSOUrlWith "diatdevoauth" "https://pf.ping.aws.mdlz.com/as/authorization.oauth2"
    "openid profile email" redirectUri

/-- Text following the first occurrence of the pattern, or `none` when the
pattern does not occur. -/
def dropSub (pat : List Char) : List Char → Option (List Char)
  | [] => if pat.isEmpty then some [] else none
  | d :: ds =>
    if matchesAt pat (d :: ds) then some (List.drop pat.length (d :: ds))
    else dropSub pat ds

/-- Modelled from the spec: the hostname of a URI, the text between
`"://"` and the following `"/"`.  Needed only to state the spec's
"hostname contains the trigger substring" condition; the source never
computes a hostname from the redirect URI. -/
def hostOf (uri : String) : String :=
  match dropSub "://".data uri.data with
  | some rest => ⟨rest.takeWhile (fun c => c != '/')⟩
  | none => ""

/- ===================== src/auth.js (backend-exchange variant) ========== -/

/-- JSON body of the backend code-exchange response: the fields the code
inspects (`data.token || data.access_token || data.jwt`). -/
structure BackendResp where
  token : Option String
  access_token : Option String
  jwt : Option String
deriving DecidableEq

namespace AuthMain

/-- `getToken` from `src/auth.js`: a pure read of
`sessionStorage.getItem(TOKEN_KEY)`. -/
def getToken (store : Option String) : Option String :=
  store

/-- `logout` from `src/auth.js` (without the optional IdP redirect):
`sessionStorage.removeItem(TOKEN_KEY)`. -/
def logout (_ : Option String) : Option String :=
  none

/-- `isAuthenticated` from `src/auth.js`.  Returns the boolean result and
the resulting store (`logout` clears it on decode failure or expiry).
The expiry branch is `decoded.exp && decoded.exp * 1000 < Date.now()`:
a falsy (absent or zero) `exp` skips the comparison. -/
def isAuthenticated (decode : String → Option Claims) (now : Int)
    (store : Option String) : Bool × Option String :=
  match getToken store with
  | none => (false, store)
  | some token =>
    if token = "" then (false, store)
    else
      match decode token with
      | none => (false, logout store)
      | some decoded =>
        match decoded.exp with
        | some e => if e ≠ 0 ∧ e * 1000 < now then (false, logout store) else (true, store)
        | none => (true, store)

/-- `login` from `src/auth.js`: requires a truthy code, performs the
backend GET (`backend` returns `none` when the response is not ok), then
stores the first truthy of `data.token`, `data.access_token`, `data.jwt`.
Result: outcome, updated store, and whether the code exchange (the
backend call) was performed. -/
def login (backend : String → Option BackendResp) (code : Option String)
    (store : Option String) : Except String String × Option String × Bool :=
  if strTruthy code then
    match backend (code.getD "") with
    | none => (Except.error "Authentication failed", store, true)
    | some data =>
      match jsOr (jsOr data.token data.access_token) data.jwt with
      | some t =>
        if t = "" then (Except.error "No token received from backend", store, true)
        else (Except.ok t, some t, true)
      | none => (Except.error "No token received from backend", store, true)
  else (Except.error "Authorization code is required", store, false)

/-- `handleSSOCallback` from `src/auth.js`: reads only the query string
(`code`, `error`); a truthy `error` throws first; a truthy `code` is
exchanged via `login`; otherwise returns `null`.  The URL fragment is
never consulted. -/
def handleSSOCallback (backend : String → Option BackendResp)
    (store : Option String) (u : Url) :
    Except String (Option String) × Option String × Bool :=
  let code := getParam u.query "code"
  let error := getParam u.query "error"
  if strTruthy error then
    (Except.error ("SSO authentication error: " ++ error.getD ""), store, false)
  else if strTruthy code then
    match login backend code store with
    | (Except.ok t, store1, ex) => (Except.ok (some t), store1, ex)
    | (Except.error e, store1, ex) => (Except.error e, store1, ex)
  else (Except.ok none, store, false)

end AuthMain

/- ===================== src/src/auth.js (URL-extracting getToken) ======= -/

namespace AuthSrc

/-- `getToken` from `src/src/auth.js`: returns the stored token if truthy;
otherwise tries the fragment (`access_token || id_token`) and then the
query string (`token || id_token || access_token`), writing any truthy
find into session storage before returning it.  Result: returned value
and updated store. -/
def getToken (store : Option String) (u : Url) : Option String × Option String :=
  if strTruthy store then (store, store)
  else
    let hashTok :=
      match u.frag with
      | some hp => jsOr (getParam hp "access_token") (getParam hp "id_token")
      | none => none
    if strTruthy hashTok then (hashTok, hashTok)
    else
      let qTok := jsOr (jsOr (getParam u.query "token") (getParam u.query "id_token"))
        (getParam u.query "access_token")
      if strTruthy qTok then (qTok, qTok)
      else (none, store)

/-- `logout` from `src/src/auth.js` (without the optional IdP redirect). -/
def logout (_ : Option String) : Option String :=
  none

/-- `isAuthenticated` from `src/src/auth.js`: same body as the
`src/auth.js` variant, but its `getToken` reads the URL and can write the
store. -/
def isAuthenticated (decode : String → Option Claims) (now : Int)
    (store : Option String) (u : Url) : Bool × Option String :=
  match getToken store u with
  | (none, store1) => (false, store1)
  | (some token, store1) =>
    if token = "" then (false, store1)
    else
      match decode token with
      | none => (false, none)
      | some decoded =>
        match decoded.exp with
        | some e => if e ≠ 0 ∧ e * 1000 < now then (false, none) else (true, store1)
        | none => (true, store1)

/-- `getUserInfo` from `src/src/auth.js`: decodes the token returned by
(the effectful) `getToken`; decode failure yields `null`. -/
def getUserInfo (decode : String → Option Claims) (store : Option String)
    (u : Url) : Option Claims × Option String :=
  match getToken store u with
  | (none, store1) => (none, store1)
  | (some token, store1) =>
    if token = "" then (none, store1)
    else (decode token, store1)

/-- `handleSSOCallback` from `src/src/auth.js`: a truthy query `error`
throws; otherwise `getToken` runs (possibly importing a URL token into the
store) and, when a token is found, the decoded user info is returned.
(The JS cleans the URL before `getUserInfo`; its inner `getToken` call is
satisfied by the now-populated store, which the model mirrors.) -/
def handleSSOCallback (decode : String → Option Claims) (store : Option String)
    (u : Url) : Except String (Option Claims) × Option String :=
  let error := getParam u.query "error"
  if strTruthy error then
    (Except.error ("SSO authentication error: " ++ error.getD ""), store)
  else
    match getToken store u with
    | (some token, store1) =>
      if token = "" then (Except.ok none, store1)
      else
        match getUserInfo decode store1 u with
        | (info, store2) => (Except.ok info, store2)
    | (none, store1) => (Except.ok none, store1)

end AuthSrc

/- ===================== src/unnamed/part_000 (sample-test variant) ====== -/

namespace AuthSample

/-- The token-extraction chain of `login` in `src/unnamed/part_000`:
fragment `access_token || id_token` first; if that is falsy, query
`access_token || id_token || token`. -/
def loginExtract (u : Url) : Option String :=
  let hashTok :=
    match u.frag with
    | some hp => jsOr (getParam hp "access_token") (getParam hp "id_token")
    | none => none
  if strTruthy hashTok then hashTok
  else jsOr (jsOr (getParam u.query "access_token") (getParam u.query "id_token"))
    (getParam u.query "token")

/-- `login` from `src/unnamed/part_000`: extracts the token from the URL,
stores it when truthy, throws otherwise.  The third component records
whether the `code && !access_token` fallback branch (a warning; no
exchange exists in this variant) was reached. -/
def login (code : Option String) (store : Option String) (u : Url) :
    Except String String × Option String × Bool :=
  let tok := loginExtract u
  let warnedCodePath := strTruthy code && !(strTruthy tok)
  match tok with
  | some t =>
    if t = "" then (Except.error "No access token found in URL", store, warnedCodePath)
    else (Except.ok t, some t, warnedCodePath)
  | none => (Except.error "No access token found in URL", store, warnedCodePath)

/-- `getUserInfo` from `src/unnamed/part_000`: decodes the stored token
(projected here to the claims record); a falsy token or decode failure
yields the empty object, modelled as `none`. -/
def getUserInfo (decode : String → Option Claims) (store : Option String) :
    Option Claims :=
  match store with
  | some token => if token = "" then none else decode token
  | none => none

/-- `handleSSOCallback` from `src/unnamed/part_000`: a truthy query
`error` throws; otherwise `login` runs and its failure is swallowed
(`catch` returns `null`).  Result: outcome, updated store, and the
code-fallback flag from `login`. -/
def handleSSOCallback (decode : String → Option Claims) (store : Option String)
    (u : Url) : Except String (Option Claims) × Option String × Bool :=
  let code := getParam u.query "code"
  let error := getParam u.query "error"
  if strTruthy error then
    (Except.error ("SSO authentication error: " ++ error.getD ""), store, false)
  else
    match login code store u with
    | (Except.ok _, store1, w) => (Except.ok (getUserInfo decode store1), store1, w)
    | (Except.error _, store1, w) => (Except.ok none, store1, w)

end AuthSample

/- ===================== Claim-side extraction order (C2) ================ -/

/-- First key in the list whose parameter value is present and non-empty;
written from the claim's words ("checked in the fixed order …, first
non-empty match wins"). -/
def firstNonEmptyIn (ps : UrlParams) : List String → Option String
  | [] => none
  | k :: ks =>
    match getParam ps k with
    | some v => if v = "" then firstNonEmptyIn ps ks else some v
    | none => firstNonEmptyIn ps ks

/-- Claim-side extraction: the fragment keys are checked before the query
keys, each list in its fixed order, first non-empty match wins. -/
def firstMatch (u : Url) (fragKeys queryKeys : List String) : Option String :=
  match (match u.frag with
         | some f => firstNonEmptyIn f fragKeys
         | none => none) with
  | some v => some v
  | none => firstNonEmptyIn u.query queryKeys

/- ===================== C6 / C7 / C8 ==================================== -/

/-- C6: the URL Builder builds by ordered concatenation, so at the spec's
scenario config (clientId `c1`, endpoint `https://idp.example/as/authorization.oauth2`,
scope `openid profile email`, redirect `http://localhost:3000`) its output
is byte-for-byte the expected authorization URL, in that parameter order. -/
theorem c6_url_builder_exact :
    getSSOUrlWith "c1" "https://idp.example/as/authorization.oauth2" "openid profile email"
        "http://localhost:3000" =
      "https://idp.example/as/authorization.oauth2?response_type=code&client_id=c1&redirect_uri=http://localhost:3000&scope=openid profile email" := by
  rfl

/-- C7 counterexample: for the redirect URI `https://app.example.com/global`
the hostname (`app.example.com`) contains neither the trigger substring
`global` nor the exclusion `predev`, so the claim predicts no appended
slash — yet the builder appends one, because the source tests the whole
redirect URI string rather than its hostname. -/
theorem c7_counterexample :
    jsIncludes (hostOf "https://app.example.com/global") "global" = false ∧
      redirectSlash "https://app.example.com/global" = "/" ∧
      getSSOUrl "https://app.example.com/global" =
        "https://pf.ping.aws.mdlz.com/as/authorization.oauth2?response_type=code&client_id=diatdevoauth&redirect_uri=https://app.example.com/global/&scope=openid profile email" := by
  refine ⟨by decide, by decide, by rfl⟩

/-- C7 (amended): the trigger and exclusion substrings are matched against
the whole supplied redirect URI string (not its hostname): the built URL
appends exactly one `/` to the redirect URI when the URI contains
`global` and not `predev`, and appends nothing otherwise. -/
theorem c7_trailing_slash (uri : String) :
    getSSOUrl uri =
        "https://pf.ping.aws.mdlz.com/as/authorization.oauth2?response_type=code&client_id=diatdevoauth&redirect_uri="
          ++ (uri ++ (redirectSlash uri ++ "&scope=openid profile email")) ∧
      (jsIncludes uri "global" = true ∧ jsIncludes uri "predev" = false →
        redirectSlash uri = "/") ∧
      (¬ (jsIncludes uri "global" = true ∧ jsIncludes uri "predev" = false) →
        redirectSlash uri = "") := by
  refine ⟨?_, ?_, ?_⟩
  · unfold getSSOUrl getSSOUrlWith
    rw [show ("https://pf.ping.aws.mdlz.com/as/authorization.oauth2?response_type=code&client_id=diatdevoauth&redirect_uri=" : String) =
      "https://pf.ping.aws.mdlz.com/as/authorization.oauth2" ++ "?response_type=code&client_id=" ++ "diatdevoauth" ++ "&redirect_uri=" from rfl]
    rw [show ("&scope=openid profile email" : String) = "&scope=" ++ "openid profile email" from rfl]
    simp [String.append_assoc]
  · intro h
    unfold redirectSlash
    rw [if_pos h]
  · intro h
    unfold redirectSlash
    rw [if_neg h]

/-- C7 witness: a URI containing `global` but not `predev` gets exactly
one appended slash; obtained from the amended theorem at a concrete
input. -/
theorem c7_trailing_slash_witness :
    redirectSlash "https://global.mdlz.com/app" = "/" :=
  (c7_trailing_slash "https://global.mdlz.com/app").2.1 (by decide)

/-- C8: for every hostname and every group-membership list, admin implies
developer and developer implies project member, via the evaluation-order
shortcut at the top of `isDeveloper` and `isProjectMember`. -/
theorem c8_admin_developer_member (hostname : String) (memberOf : Option (List String)) :
    (isAdmin hostname memberOf = true → isDeveloper hostname memberOf = true) ∧
      (isDeveloper hostname memberOf = true → isProjectMember hostname memberOf = true) := by
  constructor
  · intro h
    unfold isDeveloper
    simp [h]
  · intro h
    unfold isProjectMember
    simp [h]

/-- C8 witness: on the localhost hostname the admin predicate is true, and
the implications yield developer and project-member at that input. -/
theorem c8_admin_developer_member_witness :
    isDeveloper "localhost" none = true ∧ isProjectMember "localhost" none = true :=
  ⟨(c8_admin_developer_member "localhost" none).1 (by decide),
    (c8_admin_developer_member "localhost" none).2
      ((c8_admin_developer_member "localhost" none).1 (by decide))⟩

/- ===================== Extraction-order lemmas (C2 / C9) =============== -/

/-- `strTruthy` computed on an absent value. -/
theorem strTruthy_none : strTruthy none = false :=
  rfl

/-- A truthy string-or-null value is present. -/
theorem isSome_of_strTruthy (x : Option String) (h : strTruthy x = true) :
    x.isSome = true := by
  rcases x with _ | v
  · simp [strTruthy] at h
  · simp

/-- Collapsing a truthiness-guarded `||` of two values into nested guards. -/
theorem chain2_eq (a b R : Option String) :
    (if strTruthy (jsOr a b) = true then jsOr a b else R) =
      (if strTruthy a = true then a else if strTruthy b = true then b else R) := by
  by_cases h : strTruthy a = true <;> simp [jsOr, h]

/-- One step of the claim-side ordered lookup as a truthiness guard. -/
theorem stepNE (ps : UrlParams) (k : String) (ks : List String) :
    firstNonEmptyIn ps (k :: ks) =
      (if strTruthy (getParam ps k) = true then getParam ps k
       else firstNonEmptyIn ps ks) := by
  rcases h : getParam ps k with _ | v
  · simp [firstNonEmptyIn, h, strTruthy]
  · by_cases hv : v = "" <;> simp [firstNonEmptyIn, h, strTruthy, hv]

/-- An option-valued `match` that forwards `some` is an `isSome` guard. -/
theorem optMatch_eq (x R : Option String) :
    (match x with | some v => some v | none => R) =
      (if x.isSome = true then x else R) := by
  rcases x <;> simp

/-- A pair-building `match` on an option is an `isSome` guard. -/
theorem pairMatch_eq (x : Option String) (R : Option String × Option String) :
    (match x with | some t => ((some t : Option String), (some t : Option String)) | none => R) =
      (if x.isSome = true then (x, x) else R) := by
  rcases x <;> simp

/-- The URL-extracting `getToken` of `src/src/auth.js`, run on an empty
store, returns the first non-empty parameter in the order: fragment
`access_token`, fragment `id_token`, query `token`, query `id_token`,
query `access_token` — and mirrors that value into the store. -/
theorem authSrc_getToken_empty (u : Url) :
    AuthSrc.getToken none u =
      match firstMatch u ["access_token", "id_token"] ["token", "id_token", "access_token"] with
      | some t => (some t, some t)
      | none => (none, none) := by
  obtain ⟨frag, q⟩ := u
  rcases frag with _ | f
  · simp only [AuthSrc.getToken, firstMatch, strTruthy_none]
    rw [pairMatch_eq, stepNE, stepNE, stepNE]
    simp only [firstNonEmptyIn]
    by_cases h1 : strTruthy (getParam q "token") = true <;>
      by_cases h2 : strTruthy (getParam q "id_token") = true <;>
        by_cases h3 : strTruthy (getParam q "access_token") = true <;>
          simp [jsOr, h1, h2, h3, isSome_of_strTruthy]
  · simp only [AuthSrc.getToken, firstMatch, strTruthy_none]
    rw [pairMatch_eq, optMatch_eq, stepNE, stepNE, stepNE, stepNE, stepNE]
    simp only [firstNonEmptyIn]
    by_cases hf1 : strTruthy (getParam f "access_token") = true <;>
      by_cases hf2 : strTruthy (getParam f "id_token") = true <;>
        by_cases h1 : strTruthy (getParam q "token") = true <;>
          by_cases h2 : strTruthy (getParam q "id_token") = true <;>
            by_cases h3 : strTruthy (getParam q "access_token") = true <;>
              simp [jsOr, hf1, hf2, h1, h2, h3, isSome_of_strTruthy]

/-- The token-extraction chain of the sample-test `login`, truthiness
normalised, is the ordered first-non-empty lookup: fragment `access_token`,
fragment `id_token`, query `access_token`, query `id_token`, query `token`. -/
theorem loginExtract_firstMatch (u : Url) :
    (if strTruthy (AuthSample.loginExtract u) = true then AuthSample.loginExtract u else none) =
      firstMatch u ["access_token", "id_token"] ["access_token", "id_token", "token"] := by
  obtain ⟨frag, q⟩ := u
  rcases frag with _ | f
  · simp only [AuthSample.loginExtract, firstMatch, strTruthy_none]
    rw [stepNE, stepNE, stepNE]
    simp only [firstNonEmptyIn]
    by_cases h1 : strTruthy (getParam q "access_token") = true <;>
      by_cases h2 : strTruthy (getParam q "id_token") = true <;>
        by_cases h3 : strTruthy (getParam q "token") = true <;>
          simp [jsOr, h1, h2, h3, isSome_of_strTruthy]
  · simp only [AuthSample.loginExtract, firstMatch, strTruthy_none]
    rw [optMatch_eq, stepNE, stepNE, stepNE, stepNE, stepNE]
    simp only [firstNonEmptyIn]
    by_cases hf1 : strTruthy (getParam f "access_token") = true <;>
      by_cases hf2 : strTruthy (getParam f "id_token") = true <;>
        by_cases h1 : strTruthy (getParam q "access_token") = true <;>
          by_cases h2 : strTruthy (getParam q "id_token") = true <;>
            by_cases h3 : strTruthy (getParam q "token") = true <;>
              simp [jsOr, hf1, hf2, h1, h2, h3, isSome_of_strTruthy]

/-- The sample-test `login` of `src/unnamed/part_000`, characterised by
the ordered first-non-empty extraction: a find is stored and returned and
the code-fallback branch is untaken; otherwise the code-fallback branch
runs exactly when a truthy `code` was passed, and `login` throws with the
store unchanged. -/
theorem authSample_login_eq (code store : Option String) (u : Url) :
    AuthSample.login code store u =
      match firstMatch u ["access_token", "id_token"] ["access_token", "id_token", "token"] with
      | some t => (Except.ok t, some t, false)
      | none => (Except.error "No access token found in URL", store, strTruthy code) := by
  rw [← loginExtract_firstMatch]
  rcases hek : AuthSample.loginExtract u with _ | t
  · simp [AuthSample.login, hek, strTruthy_none]
  · by_cases ht : t = ""
    · subst ht
      simp [AuthSample.login, hek, strTruthy]
    · simp [AuthSample.login, hek, strTruthy, ht]

/- ===================== C2 / C9 ========================================= -/

/-- Concrete callback URL for the C2 counterexample: both `access_token`
and `token` present in the query string, no fragment. -/
def urlC2 : Url :=
  ⟨none, [("access_token", "A"), ("token", "T")]⟩

/-- C2 counterexample: the URL carries query `access_token=A` and
`token=T`; the claim's fixed order (`access_token` before `token`) demands
`A`, but the `src/src/auth.js` `getToken` extraction returns `T`, because
that variant checks the query in the order `token`, `id_token`,
`access_token`. -/
theorem c2_counterexample :
    getParam urlC2.query "access_token" = some "A" ∧
      getParam urlC2.query "token" = some "T" ∧
      AuthSrc.getToken none urlC2 = (some "T", some "T") :=
  ⟨rfl, rfl, rfl⟩

/-- C2 (amended): extraction is first-non-empty over fragment keys
(`access_token` before `id_token`) before query keys, but the query order
differs per variant: the sample-test `login` checks `access_token`,
`id_token`, `token`, while the `src/src/auth.js` `getToken` checks
`token`, `id_token`, `access_token`. -/
theorem c2_extraction_order (u : Url) (code store : Option String) :
    AuthSample.login code store u =
        (match firstMatch u ["access_token", "id_token"] ["access_token", "id_token", "token"] with
         | some t => (Except.ok t, some t, false)
         | none => (Except.error "No access token found in URL", store, strTruthy code)) ∧
      AuthSrc.getToken none u =
        (match firstMatch u ["access_token", "id_token"] ["token", "id_token", "access_token"] with
         | some t => (some t, some t)
         | none => (none, none)) :=
  ⟨authSample_login_eq code store u, authSrc_getToken_empty u⟩

/-- C9: in the `src/src/auth.js` variant `getToken` is not a pure read —
on an empty session store, whenever the URL carries a recognized non-empty
token parameter, `getToken` writes the extracted token into the store and
returns it, so a token becomes resident without `handleSSOCallback` or
`login` running. -/
theorem c9_getToken_side_effect (u : Url) (t : String)
    (h : firstMatch u ["access_token", "id_token"] ["token", "id_token", "access_token"] = some t) :
    AuthSrc.getToken none u = (some t, some t) := by
  rw [authSrc_getToken_empty, h]

/-- Concrete URL for the C9 witness: a bare `?token=W9` query. -/
def urlC9 : Url :=
  ⟨none, [("token", "W9")]⟩

/-- C9 witness: with `?token=W9` and an empty store, `getToken` both
returns and persists `W9`. -/
theorem c9_getToken_side_effect_witness :
    AuthSrc.getToken none urlC9 = (some "W9", some "W9") :=
  c9_getToken_side_effect urlC9 "W9" rfl

/- ===================== C1 / C10 ======================================== -/

/-- Concrete decoder for the C1 counterexample: the stored token decodes
to claims with `exp = 0`. -/
def decodeC1 : String → Option Claims :=
  fun s => if s = "tk" then some ⟨some 0⟩ else none

/-- C1 counterexample: the stored token decodes, its claims contain `exp`
with `exp * 1000` strictly below the current time, yet `isAuthenticated`
returns `true` and leaves the store intact — `exp = 0` is falsy in
JavaScript, so the expiry branch is skipped. -/
theorem c1_counterexample :
    decodeC1 "tk" = some ⟨some 0⟩ ∧
      ((0 : Int) * 1000 < 1700000000000) ∧
      AuthMain.isAuthenticated decodeC1 1700000000000 (some "tk") = (true, some "tk") :=
  ⟨rfl, by norm_num, rfl⟩

/-- C1 (amended): `isAuthenticated()` is `false` on an empty store; for a
stored non-empty token, a decode failure clears the store and yields
`false`; if it decodes and `exp` is present, nonzero and `exp * 1000` is
below the current time, the store is cleared and `false` returned;
otherwise `true` — an absent or zero `exp` is treated as non-expiring. -/
theorem c1_isAuthenticated_amended (d : String → Option Claims) (now : Int) (t : String)
    (ht : t ≠ "") :
    AuthMain.isAuthenticated d now none = (false, none) ∧
      (d t = none → AuthMain.isAuthenticated d now (some t) = (false, none)) ∧
      (∀ c e, d t = some c → c.exp = some e → e ≠ 0 → e * 1000 < now →
        AuthMain.isAuthenticated d now (some t) = (false, none)) ∧
      (∀ c, d t = some c → (∀ e, c.exp = some e → e = 0 ∨ ¬ e * 1000 < now) →
        AuthMain.isAuthenticated d now (some t) = (true, some t)) := by
  refine ⟨rfl, ?_, ?_, ?_⟩
  · intro hd
    simp [AuthMain.isAuthenticated, AuthMain.getToken, AuthMain.logout, ht, hd]
  · intro c e hd he hne hlt
    simp [AuthMain.isAuthenticated, AuthMain.getToken, AuthMain.logout, ht, hd, he, hne, hlt]
  · intro c hd hne
    rcases hexp : c.exp with _ | e
    · simp [AuthMain.isAuthenticated, AuthMain.getToken, ht, hd, hexp]
    · rcases hne e hexp with h0 | hge
      · subst h0
        simp [AuthMain.isAuthenticated, AuthMain.getToken, ht, hd, hexp]
      · simp [AuthMain.isAuthenticated, AuthMain.getToken, ht, hd, hexp, hge]

/-- Decoder for the C1 witness: every token fails to decode. -/
def decodeC1w : String → Option Claims :=
  fun _ => none

/-- C1 witness: a stored non-empty undecodable token yields `false` and a
cleared store, via the amended theorem at a concrete input. -/
theorem c1_isAuthenticated_amended_witness :
    AuthMain.isAuthenticated decodeC1w 5 (some "x") = (false, none) :=
  (c1_isAuthenticated_amended decodeC1w 5 "x" (by decide)).2.1 rfl

/-- C10: a stored token whose decoded claims carry `exp` present but equal
to `0` skips the expiry comparison entirely — `isAuthenticated` returns
`true` and does not clear the store, because the expiry branch is guarded
by the truthiness of `exp`, not its presence. -/
theorem c10_exp_zero_skips_expiry (d : String → Option Claims) (now : Int) (t : String)
    (c : Claims) (ht : t ≠ "") (hd : d t = some c) (he : c.exp = some 0) :
    AuthMain.isAuthenticated d now (some t) = (true, some t) := by
  simp [AuthMain.isAuthenticated, AuthMain.getToken, ht, hd, he]

/-- Decoder for the C10 witness: the token `w0` decodes to `exp = 0`. -/
def decodeC10 : String → Option Claims :=
  fun s => if s = "w0" then some ⟨some 0⟩ else none

/-- C10 witness: at a concrete epoch-milliseconds clock far past `0`, the
`exp = 0` token still authenticates and stays resident. -/
theorem c10_exp_zero_skips_expiry_witness :
    AuthMain.isAuthenticated decodeC10 1700000000000 (some "w0") = (true, some "w0") :=
  c10_exp_zero_skips_expiry decodeC10 1700000000000 "w0" ⟨some 0⟩ (by decide) rfl rfl

/- ===================== C3 ============================================== -/

/-- C3 (amended): for every callback URL whose query string contains an
`error` parameter with a non-empty value, every `handleSSOCallback`
variant fails immediately with an authentication error naming the
IdP-reported code, regardless of any token or code also present, and the
store is untouched (no token extracted or persisted, no exchange). -/
theorem c3_error_param (d : String → Option Claims) (backend : String → Option BackendResp)
    (store : Option String) (u : Url) (e : String)
    (he : getParam u.query "error" = some e) (hne : e ≠ "") :
    AuthSrc.handleSSOCallback d store u =
        (Except.error ("SSO authentication error: " ++ e), store) ∧
      AuthSample.handleSSOCallback d store u =
        (Except.error ("SSO authentication error: " ++ e), store, false) ∧
      AuthMain.handleSSOCallback backend store u =
        (Except.error ("SSO authentication error: " ++ e), store, false) := by
  refine ⟨?_, ?_, ?_⟩
  · simp [AuthSrc.handleSSOCallback, he, strTruthy, hne]
  · simp [AuthSample.handleSSOCallback, he, strTruthy, hne]
  · simp [AuthMain.handleSSOCallback, he, strTruthy, hne]

/-- Decoder for the C3 witness. -/
def decodeC3 : String → Option Claims :=
  fun _ => some ⟨none⟩

/-- Backend for the C3 witness. -/
def backendC3 : String → Option BackendResp :=
  fun _ => some ⟨some "B", none, none⟩

/-- URL for the C3 witness: `error=access_denied` next to a fragment token
and a query code. -/
def urlC3 : Url :=
  ⟨some [("access_token", "X")], [("error", "access_denied"), ("code", "c9")]⟩

/-- C3 witness: all three variants throw the authentication error naming
`access_denied` and leave the store empty, although a fragment token and a
code are present in the same URL. -/
theorem c3_error_param_witness :
    AuthSrc.handleSSOCallback decodeC3 none urlC3 =
        (Except.error ("SSO authentication error: " ++ "access_denied"), none) ∧
      AuthSample.handleSSOCallback decodeC3 none urlC3 =
        (Except.error ("SSO authentication error: " ++ "access_denied"), none, false) ∧
      AuthMain.handleSSOCallback backendC3 none urlC3 =
        (Except.error ("SSO authentication error: " ++ "access_denied"), none, false) :=
  c3_error_param decodeC3 backendC3 none urlC3 "access_denied" rfl (by decide)

/-- Decoder for the C3 counterexample. -/
def decodeC3x : String → Option Claims :=
  fun s => if s = "TT" then some ⟨none⟩ else none

/-- URL for the C3 counterexample: the query string contains an `error`
parameter with an empty value, next to `token=TT`. -/
def urlC3x : Url :=
  ⟨none, [("error", ""), ("token", "TT")]⟩

/-- C3 counterexample: the query string contains an `error` parameter
(`?error=`), yet `handleSSOCallback` does not fail — the empty value is
falsy, so the `src/src/auth.js` variant proceeds, extracts `TT` and
persists it. -/
theorem c3_counterexample :
    getParam urlC3x.query "error" = some "" ∧
      AuthSrc.handleSSOCallback decodeC3x none urlC3x =
        (Except.ok (some ⟨none⟩), some "TT") :=
  ⟨rfl, rfl⟩

/- ===================== C4 ============================================== -/

/-- C4 (amended): on a callback URL with a non-empty fragment
`access_token`, a non-empty query `code` and no truthy `error`, the
sample-test `handleSSOCallback` (and its `login`) uses the fragment token,
persists it and never enters the code path — but the `src/auth.js`
variant ignores the fragment entirely and performs the
authorization-code exchange. -/
theorem c4_fragment_over_code (d : String → Option Claims) (backend : String → Option BackendResp)
    (store : Option String) (u : Url) (f : UrlParams) (t cc : String)
    (hf : u.frag = some f) (hat : getParam f "access_token" = some t) (ht : t ≠ "")
    (herr : strTruthy (getParam u.query "error") = false)
    (hcode : getParam u.query "code" = some cc) (hcc : cc ≠ "") :
    AuthSample.handleSSOCallback d store u = (Except.ok (d t), some t, false) ∧
      (AuthMain.handleSSOCallback backend store u).2.2 = true := by
  constructor
  · have hfm : firstMatch u ["access_token", "id_token"] ["access_token", "id_token", "token"]
        = some t := by
      simp [firstMatch, hf, stepNE, hat, strTruthy, ht]
    simp [AuthSample.handleSSOCallback, herr, authSample_login_eq, hfm,
      AuthSample.getUserInfo, ht]
  · simp only [AuthMain.handleSSOCallback, herr, hcode, AuthMain.login]
    have hsc : strTruthy (some cc) = true := by simp [strTruthy, hcc]
    rcases hb : backend cc with _ | data
    · simp [hsc, hb]
    · rcases hj : jsOr (jsOr data.token data.access_token) data.jwt with _ | tv
      · simp [hsc, hb, hj]
      · by_cases htv : tv = "" <;> simp [hsc, hb, hj, htv]

/-- Decoder for the C4 witness. -/
def decodeC4 : String → Option Claims :=
  fun s => if s = "FR" then some ⟨none⟩ else none

/-- Backend for the C4 witness. -/
def backendC4 : String → Option BackendResp :=
  fun _ => some ⟨some "BK", none, none⟩

/-- URL for the C4 witness: fragment `access_token=FR` and query
`code=zz`. -/
def urlC4 : Url :=
  ⟨some [("access_token", "FR")], [("code", "zz")]⟩

/-- C4 witness: the amended theorem at a concrete input — the sample
variant persists the fragment token `FR` without taking the code path,
while the `src/auth.js` variant performs the exchange. -/
theorem c4_fragment_over_code_witness :
    AuthSample.handleSSOCallback decodeC4 none urlC4 =
        (Except.ok (decodeC4 "FR"), some "FR", false) ∧
      (AuthMain.handleSSOCallback backendC4 none urlC4).2.2 = true :=
  c4_fragment_over_code decodeC4 backendC4 none urlC4 [("access_token", "FR")] "FR" "zz"
    rfl rfl (by decide) rfl rfl (by decide)

/-- Backend for the C4 counterexample: the exchange returns token `BK`. -/
def backendC4x : String → Option BackendResp :=
  fun _ => some ⟨some "BK", none, none⟩

/-- URL for the C4 counterexample: fragment `access_token=FR` and query
`code=c7`, no error. -/
def urlC4x : Url :=
  ⟨some [("access_token", "FR")], [("code", "c7")]⟩

/-- C4 counterexample: with a fragment `access_token` and a query `code`
both present, the `src/auth.js` `handleSSOCallback` performs the
authorization-code exchange (third component `true`) and persists the
backend's token `BK`, not the fragment token `FR`. -/
theorem c4_counterexample :
    getParam (urlC4x.frag.getD []) "access_token" = some "FR" ∧
      getParam urlC4x.query "code" = some "c7" ∧
      AuthMain.handleSSOCallback backendC4x none urlC4x =
        (Except.ok (some "BK"), some "BK", true) :=
  ⟨rfl, rfl, rfl⟩

/- ===================== C5 ============================================== -/

/-- C5 (amended): after `logout()` the `src/src/auth.js`
`isAuthenticated()` returns `false` provided the page URL carries no
extractable token (its `getToken` re-imports URL tokens into the empty
store, so a URL token can re-authenticate); and immediately after
`save()` of a non-empty token that decodes to unexpired claims it returns
`true` for every page URL. -/
theorem c5_logout_save (d : String → Option Claims) (now : Int) (s : Option String) (u : Url)
    (t : String) (c : Claims) (ht : t ≠ "") (hd : d t = some c)
    (hexp : ∀ e, c.exp = some e → now ≤ e * 1000) :
    ((AuthSrc.getToken none u).1 = none →
        AuthSrc.isAuthenticated d now (AuthSrc.logout s) u = (false, none)) ∧
      AuthSrc.isAuthenticated d now (saveToken t s) u = (true, some t) := by
  constructor
  · intro h
    have h2 : AuthSrc.getToken none u = (none, none) := by
      rw [authSrc_getToken_empty] at h ⊢
      rcases hm : firstMatch u ["access_token", "id_token"] ["token", "id_token", "access_token"]
        with _ | v
      · simp
      · rw [hm] at h
        simp at h
    simp [AuthSrc.isAuthenticated, AuthSrc.logout, h2]
  · have hg : AuthSrc.getToken (saveToken t s) u = (some t, some t) := by
      simp [AuthSrc.getToken, saveToken, strTruthy, ht]
    rcases hexpc : c.exp with _ | e
    · simp [AuthSrc.isAuthenticated, hg, ht, hd, hexpc]
    · have hle := hexp e hexpc
      simp [AuthSrc.isAuthenticated, hg, ht, hd, hexpc, not_lt.mpr hle]

/-- Decoder for the C5 counterexample: the URL token `UT` decodes to
non-expiring claims. -/
def decodeC5 : String → Option Claims :=
  fun s => if s = "UT" then some ⟨none⟩ else none

/-- URL for the C5 counterexample: the page URL still carries fragment
`access_token=UT`. -/
def urlC5 : Url :=
  ⟨some [("access_token", "UT")], []⟩

/-- C5 counterexample: calling `logout()` and then immediately
`isAuthenticated()` returns `true` (not `false`) on a page URL still
carrying a decodable fragment token — `getToken` re-imports `UT` into the
freshly cleared store. -/
theorem c5_counterexample :
    AuthSrc.isAuthenticated decodeC5 0 (AuthSrc.logout (some "OLD")) urlC5 =
      (true, some "UT") :=
  rfl

/-- Decoder for the C5 witness. -/
def decodeC5w : String → Option Claims :=
  fun s => if s = "W5" then some ⟨none⟩ else none

/-- Token-free URL for the C5 witness. -/
def urlC5w : Url :=
  ⟨none, []⟩

/-- C5 witness: on a token-free page URL, logout-then-check yields `false`
and save-then-check of the well-formed token `W5` yields `true`. -/
theorem c5_logout_save_witness :
    AuthSrc.isAuthenticated decodeC5w 0 (AuthSrc.logout (some "x")) urlC5w = (false, none) ∧
      AuthSrc.isAuthenticated decodeC5w 0 (saveToken "W5" (some "x")) urlC5w =
        (true, some "W5") :=
  ⟨(c5_logout_save decodeC5w 0 (some "x") urlC5w "W5" ⟨none⟩ (by decide) rfl
      (fun e he => by simp at he)).1 rfl,
    (c5_logout_save decodeC5w 0 (some "x") urlC5w "W5" ⟨none⟩ (by decide) rfl
      (fun e he => by simp at he)).2⟩
